import Mathlib

/-
Shallow embedding of the virtual-subpopulation splitter engine
(src/virtualSubPop.h) and the selection engine (src/selector.h) of simuPOP.

The repository ships the two headers only.  Method bodies that live in the
corresponding .cpp translation units (splitter constructors, composite
splitter contains and getVSPs, mlSelector::indFitness) are modelled from
the specification; each such definition carries a doc comment starting
with "Modelled from the spec:".  Everything else is translated directly
from the header bodies.
-/

namespace SimuPOP

/-- Modelled from the spec: the "unset" sentinel for subpopulation IDs.
`InvalidSubPopID` is defined in simuPOP_cfg.h, which is not part of the
repository snapshot; the header compares IDs against it after clamping
negative inputs, so it is a negative sentinel. -/
def InvalidSubPopID : Int := -1

/-- The vspID class of virtualSubPop.h: a (subpopulation ID,
virtual-subpopulation ID) pair. -/
structure vspID where
  m_subPop : Int
  m_virtualSubPop : Int
  deriving DecidableEq, Repr

/-- The two-argument constructor `vspID(SubPopID, SubPopID)`
(virtualSubPop.h): negative inputs are clamped to `InvalidSubPopID`. -/
def vspID.mk2 (subPop : Int) (virtualSubPop : Int) : vspID :=
  { m_subPop := if subPop < 0 then InvalidSubPopID else subPop
    m_virtualSubPop := if virtualSubPop < 0 then InvalidSubPopID else virtualSubPop }

/-- The vector constructor `vspID(const vectori &)` (virtualSubPop.h):
fails when more than two elements are given; element 0 becomes the
subpopulation ID and element 1 the virtual ID, negative or missing
entries becoming `InvalidSubPopID`. -/
def vspID.ofList (l : List Int) : Except String vspID :=
  if l.length > 2 then
    .error "VSP should be specified as a subPop and virtualSubPop ID pair"
  else
    .ok { m_subPop := if 0 < l.length ∧ 0 ≤ l.getD 0 0 then l.getD 0 0 else InvalidSubPopID
          m_virtualSubPop := if 1 < l.length ∧ 0 ≤ l.getD 1 0 then l.getD 1 0 else InvalidSubPopID }

/-- `vspID::valid()` from virtualSubPop.h. -/
def vspID.valid (v : vspID) : Bool := v.m_subPop ≠ InvalidSubPopID

/-- `vspID::isVirtual()` from virtualSubPop.h. -/
def vspID.isVirtual (v : vspID) : Bool := v.m_virtualSubPop ≠ InvalidSubPopID

/-- The only per-individual state the splitter engine touches: the
visibility flag (the individual class itself is an external collaborator). -/
structure individual where
  visible : Bool
  deriving DecidableEq, Repr

/-- The mutable state of the vspSplitter base class that the
activate/deactivate protocol uses: the currently activated
subpopulation (`m_activated`, initialised to `InvalidSubPopID`). -/
structure vspSplitterState where
  m_activated : Int
  deriving DecidableEq, Repr

/-- `vspSplitter::deactivate(SubPopID subPop)`, translated from its body in
virtualSubPop.h: fail when `subPop` is not the activated subpopulation,
otherwise reset `m_activated`.  The method receives no population handle,
so it leaves every individual untouched. -/
def vspSplitter.deactivate (s : vspSplitterState) (subPop : Int) :
    Except String vspSplitterState :=
  if subPop ≠ s.m_activated then
    .error "Deactivate non-activated virtual subpopulation."
  else
    .ok { m_activated := InvalidSubPopID }

/-- Modelled from the spec: `activate(pop, subPop, vsp)` "sets the
visibility flag to true for individuals satisfying contains, false
otherwise, for all individuals of subPop; records subPop as activated".
The per-splitter activate bodies live in virtualSubPop.cpp, which is not
part of the snapshot; the membership test is abstracted as a predicate on
the index of the individual inside the subpopulation. -/
def splitterActivate (memb : Nat → Bool) (subPop : Int)
    (pop : List individual) : vspSplitterState × List individual :=
  ({ m_activated := subPop },
   (List.range pop.length).map fun i => { visible := memb i })

/-- An activate immediately followed by a deactivate of the same
subpopulation, threading the splitter state and the subpopulation through
both calls.  `deactivate` never receives the population, so the
population that comes out is exactly the one `activate` produced. -/
def activateThenDeactivate (memb : Nat → Bool) (subPop : Int)
    (pop : List individual) : Except String (vspSplitterState × List individual) :=
  let r := splitterActivate memb subPop pop
  (vspSplitter.deactivate r.1 subPop).map fun s2 => (s2, r.2)

/-- The child-splitter interface the composite splitters delegate to
(the virtual vspSplitter interface, for one fixed population and
subpopulation): a VSP count and a membership test taking the index of an
individual inside the subpopulation and a child-local VSP index. -/
structure childSplitter where
  numVSP : Nat
  contains : Nat → Nat → Bool

instance : Inhabited childSplitter := ⟨⟨0, fun _ _ => false⟩⟩

/-- Modelled from the spec: mixed-radix decomposition of a flattened
product-splitter VSP index over the child VSP counts, the most
significant child varying slowest (productSplitter::getVSPs lives in
virtualSubPop.cpp, which is not part of the snapshot). -/
def mixedRadixDecomp : List Nat → Nat → List Nat
  | [], _ => []
  | _ :: cs, v => v / cs.prod :: mixedRadixDecomp cs (v % cs.prod)

/-- Recomposition of a mixed-radix digit list (most significant first)
back to a flattened index; used to state that the decomposition is the
inverse of flattening. -/
def mixedRadixVal : List Nat → List Nat → Nat
  | _ :: cs, d :: ds => d * cs.prod + mixedRadixVal cs ds
  | _, _ => 0

/-- The productSplitter of virtualSubPop.h, holding its child splitters. -/
structure productSplitter where
  m_splitters : List childSplitter

/-- Modelled from the spec: the product-splitter constructor computes
`m_numVSP` by cross-multiplying the child VSP counts (the constructor
body is in virtualSubPop.cpp, which is not part of the snapshot). -/
def productSplitter.m_numVSP (s : productSplitter) : Nat :=
  (s.m_splitters.map childSplitter.numVSP).prod

/-- `productSplitter::numVirtualSubPop()` from virtualSubPop.h: returns
`m_numVSP`. -/
def productSplitter.numVirtualSubPop (s : productSplitter) : Nat :=
  s.m_numVSP

/-- Modelled from the spec: `productSplitter::getVSPs` decomposes a
flattened VSP index via mixed-radix arithmetic over the child VSP counts,
most significant child varying slowest. -/
def productSplitter.getVSPs (s : productSplitter) (vsp : Nat) : List Nat :=
  mixedRadixDecomp (s.m_splitters.map childSplitter.numVSP) vsp

/-- Modelled from the spec: `productSplitter::contains` holds iff every
child splitter contains the individual at its decomposed child-local VSP
index (logical AND across the children). -/
def productSplitter.contains (s : productSplitter) (ind : Nat) (vsp : Nat) : Bool :=
  (s.m_splitters.zip (s.getVSPs vsp)).all fun p => p.1.contains ind p.2

/-- The combinedSplitter of virtualSubPop.h: child splitters plus the
internal `m_vspMap`, a table sending each flattened VSP index to the list
of (child-splitter index, child-local VSP index) pairs it stands for. -/
structure combinedSplitter where
  m_splitters : List childSplitter
  m_vspMap : List (List (Nat × Nat))

/-- Translation of a flattened original VSP index to its
(child-splitter index, child-local index) pair by scanning the child VSP
counts; the first argument accumulates the index of the current child. -/
def toChildPair : Nat → List childSplitter → Nat → Nat × Nat
  | i, [], k => (i, k)
  | i, c :: cs, k => if k < c.numVSP then (i, k) else toChildPair (i + 1) cs (k - c.numVSP)

/-- The default `m_vspMap`: one singleton entry per child VSP, children in
order; the first argument accumulates the index of the current child. -/
def defaultVspMapFrom : Nat → List childSplitter → List (List (Nat × Nat))
  | _, [] => []
  | i, c :: cs =>
      (List.range c.numVSP).map (fun v => [(i, v)]) ++ defaultVspMapFrom (i + 1) cs

/-- Modelled from the spec: the combined-splitter constructor (body in
virtualSubPop.cpp, not part of the snapshot) "concatenates child
splitters' VSP spaces in order" — one singleton (child, child-local)
entry per original flattened VSP — and "optionally accepts a list of
groups (each group = list of original flattened indices) that define
additional VSPs whose membership is the union of the member VSPs'
membership, appended after all the originals": each group becomes one
extra entry listing the (child, child-local) pairs of its member
flattened original indices. -/
def combinedSplitter.construct (splitters : List childSplitter)
    (vspMap : List (List Nat)) : combinedSplitter :=
  ⟨splitters,
   defaultVspMapFrom 0 splitters ++ vspMap.map fun g => g.map (toChildPair 0 splitters)⟩

/-- `combinedSplitter::numVirtualSubPop()` from virtualSubPop.h: the size
of `m_vspMap`. -/
def combinedSplitter.numVirtualSubPop (s : combinedSplitter) : Nat :=
  s.m_vspMap.length

/-- Modelled from the spec: `combinedSplitter::contains` holds iff at
least one (child, child-local) pair listed for the flattened VSP contains
the individual (logical OR — union membership). -/
def combinedSplitter.contains (s : combinedSplitter) (ind : Nat) (vsp : Nat) : Bool :=
  (s.m_vspMap.getD vsp []).any fun p =>
    (s.m_splitters.getD p.1 default).contains ind p.2

/-- The sum of the child VSP counts. -/
def totalNumVSP (cs : List childSplitter) : Nat :=
  (cs.map childSplitter.numVSP).sum

/-- The selection-mode tags of selector.h (`#define SEL_None 0` ...). -/
def SEL_None : Int := 0

/-- `#define SEL_Multiplicative 1` from selector.h. -/
def SEL_Multiplicative : Int := 1

/-- `#define SEL_Additive 2` from selector.h. -/
def SEL_Additive : Int := 2

/-- `#define SEL_Heterogeneity 3` from selector.h. -/
def SEL_Heterogeneity : Int := 3

/-- The closed family of operators declared in selector.h, as seen through
the baseOperator interface: the plain selector, mapSelector, maSelector
(with its stored members), mlSelector (with its child list and mode) and
pySelector.  Fitness tables are embedded as rationals, the exact
arithmetic the spec describes. -/
inductive baseOperatorV where
  | selectorOp : baseOperatorV
  | mapSelectorOp : baseOperatorV
  | maSelectorOp (m_loci : List Nat) (m_fitness : List ℚ) (m_wildtype : List Nat) : baseOperatorV
  | mlSelectorOp (m_selectors : List baseOperatorV) (m_mode : Int) : baseOperatorV
  | pySelectorOp (m_loci : List Nat) : baseOperatorV

/-- The `__repr__` strings of the five classes, copied from selector.h. -/
def reprOf : baseOperatorV → String
  | .selectorOp => "<simuPOP::selector>"
  | .mapSelectorOp => "<simuPOP::selector::map selector>"
  | .maSelectorOp _ _ _ => "<simuPOP::selector::multiple-alleles selector>"
  | .mlSelectorOp _ _ => "<simuPOP::selector::multiple-loci selector>"
  | .pySelectorOp _ => "<simuPOP::selector::python selector>"

/-- The `clone()` methods of selector.h: every class returns a copy of
itself except mlSelector, whose clone body is
`throw ValueError("Multi-loci selector can not be nested.")`. -/
def cloneOp : baseOperatorV → Except String baseOperatorV
  | .mlSelectorOp _ _ => .error "Multi-loci selector can not be nested."
  | s => .ok s

/-- The child check of the mlSelector constructor, from selector.h:
`(*s)->__repr__().substr(10,8) == "selector"`. -/
def reprCheck (s : baseOperatorV) : Bool :=
  ((reprOf s).drop 10).take 8 == "selector"

/-- The loop of the mlSelector constructor (selector.h): for each child,
assert the repr check, then push `clone()` of the child. -/
def cloneChildren : List baseOperatorV → Except String (List baseOperatorV)
  | [] => .ok []
  | s :: rest =>
    if reprCheck s then do
      let c ← cloneOp s
      let cs ← cloneChildren rest
      .ok (c :: cs)
    else
      .error ("Expecting a list of fitness calculator. Given " ++ reprOf s)

/-- The mlSelector constructor from selector.h: fail on an empty child
list (`DBG_FAILIF(selectors.empty(), ...)`), then deep-copy every child
through the repr check and `clone()`. -/
def mlSelector.construct (selectors : List baseOperatorV) (mode : Int) :
    Except String baseOperatorV :=
  if selectors.isEmpty then
    .error "Please specify at least one selector."
  else
    (cloneChildren selectors).map fun cs => .mlSelectorOp cs mode

/-- Whether an operator is an mlSelector. -/
def isMlSelector : baseOperatorV → Bool
  | .mlSelectorOp _ _ => true
  | _ => false

/-- The maSelector constructor from selector.h:
`DBG_ASSERT(m_fitness.size() == pow(3, loci.size()), ValueError, ...)` —
the fitness table must have length `3 ^ loci.size()` or construction
fails, before any evaluation can take place. -/
def maSelector.construct (loci : List Nat) (fitness : List ℚ)
    (wildtype : List Nat) : Except String baseOperatorV :=
  if fitness.length = 3 ^ loci.length then
    .ok (.maSelectorOp loci fitness wildtype)
  else
    .error "Please specify fitness for each combination of genotype."

/-- Modelled from the spec: `mlSelector::indFitness` (body in
selector.cpp, not part of the snapshot) composes the fitness values the
child selectors return for the same individual and generation:
multiplicative mode multiplies them; additive mode accumulates
`s_i = 1 - f_i` and returns `max(0, 1 - sum s_i)`.  The spec defines only
these two modes; the remaining tags are out of scope and never reached by
any theorem below. -/
def mlIndFitness (mode : Int) (fs : List ℚ) : ℚ :=
  if mode = SEL_Multiplicative then
    fs.prod
  else if mode = SEL_Additive then
    max 0 (1 - (fs.map fun f => 1 - f).sum)
  else
    1

end SimuPOP

open SimuPOP

set_option maxHeartbeats 1000000 in
theorem reprCheck_eq_true (s : baseOperatorV) : reprCheck s = true := by
  cases s <;> (simp only [reprCheck, reprOf]; decide)

theorem cloneOp_ok_of_not_ml (s : baseOperatorV) (h : isMlSelector s = false) :
    cloneOp s = .ok s := by
  cases s <;> simp_all [isMlSelector, cloneOp]

theorem cloneChildren_ok (l : List baseOperatorV)
    (h : ∀ s ∈ l, isMlSelector s = false) : cloneChildren l = .ok l := by
  induction l with
  | nil => rfl
  | cons s rest ih =>
    have hs := h s (by simp)
    have hr : cloneChildren rest = .ok rest := ih fun x hx => h x (by simp [hx])
    simp only [cloneChildren, reprCheck_eq_true, if_true,
      cloneOp_ok_of_not_ml s hs, hr]
    rfl

theorem cloneChildren_error_of_mem (l children : List baseOperatorV) (m : Int)
    (h : baseOperatorV.mlSelectorOp children m ∈ l) :
    ∃ e, cloneChildren l = .error e := by
  induction l with
  | nil => cases h
  | cons s rest ih =>
    rcases List.mem_cons.mp h with h1 | h2
    · refine ⟨"Multi-loci selector can not be nested.", ?_⟩
      simp only [cloneChildren, reprCheck_eq_true, if_true, ← h1, cloneOp]
      rfl
    · cases hc : cloneOp s with
      | error e =>
        refine ⟨e, ?_⟩
        simp only [cloneChildren, reprCheck_eq_true, if_true, hc]
        rfl
      | ok c =>
        obtain ⟨e, he⟩ := ih h2
        refine ⟨e, ?_⟩
        simp only [cloneChildren, reprCheck_eq_true, if_true, hc, he]
        rfl

/-- C3: failing-input evaluation for the round-trip claim.  On the
two-individual subpopulation with membership predicate "index 0 only",
`activate` marks individual 1 invisible and the immediately following
`deactivate` of the same subpopulation succeeds but leaves individual 1
invisible: `deactivate` receives no population handle and therefore
cannot restore any visibility flag, contradicting the claim (and the
doc comment of `deactivate` in virtualSubPop.h). -/
theorem C3_roundtrip_not_restored :
    activateThenDeactivate (fun i => i == 0) 0 [⟨true⟩, ⟨true⟩]
      = .ok (⟨InvalidSubPopID⟩, [⟨true⟩, ⟨false⟩])
  ∧ (activateThenDeactivate (fun i => i == 0) 0 [⟨true⟩, ⟨true⟩]).map
      (fun r => r.2.all individual.visible) = .ok false := by
  exact ⟨rfl, rfl⟩

/-- C4: `deactivate(subPop)` fails exactly when `subPop` differs from the
recorded `m_activated`; on a match it succeeds and resets the record to
`InvalidSubPopID`; and `activate` records the activated subpopulation in
the single scalar `m_activated` (so at most one subpopulation is
activated at a time per splitter instance). -/
theorem C4_deactivate_protocol (s : vspSplitterState) (subPop : Int)
    (memb : Nat → Bool) (pop : List individual) (sp2 : Int) :
    ((∃ e, vspSplitter.deactivate s subPop = .error e) ↔ subPop ≠ s.m_activated)
  ∧ (subPop = s.m_activated →
      vspSplitter.deactivate s subPop = .ok ⟨InvalidSubPopID⟩)
  ∧ (splitterActivate memb sp2 pop).1.m_activated = sp2 := by
  refine ⟨?_, ?_, rfl⟩
  · unfold vspSplitter.deactivate
    split
    · simp_all
    · simp_all
  · intro h
    simp [vspSplitter.deactivate, h]

theorem C4_deactivate_protocol_witness :
    vspSplitter.deactivate ⟨3⟩ 3 = .ok ⟨InvalidSubPopID⟩ :=
  (C4_deactivate_protocol ⟨3⟩ 3 (fun _ => true) [] 5).2.1 rfl

/-- C5: additive-mode composition of a multi-locus selector: the composed
fitness is `max(0, 1 - sum of (1 - f_i))`, hence `0` as soon as the
summed selection coefficients reach `1`; children `0.7, 0.6` compose to
`0.3`, and adding a third child `0.1` drives the result to `0`. -/
theorem C5_ml_additive (fs : List ℚ) :
    mlIndFitness SEL_Additive fs = max 0 (1 - (fs.map fun f => 1 - f).sum)
  ∧ (1 ≤ (fs.map fun f => 1 - f).sum → mlIndFitness SEL_Additive fs = 0)
  ∧ 0 ≤ mlIndFitness SEL_Additive fs
  ∧ mlIndFitness SEL_Additive [7/10, 6/10] = 3/10
  ∧ mlIndFitness SEL_Additive [7/10, 6/10, 1/10] = 0 := by
  have h1 : ∀ gs : List ℚ,
      mlIndFitness SEL_Additive gs = max 0 (1 - (gs.map fun f => 1 - f).sum) := by
    intro gs
    simp [mlIndFitness, SEL_Additive, SEL_Multiplicative]
  refine ⟨h1 fs, ?_, ?_, ?_, ?_⟩
  · intro h
    rw [h1 fs, max_eq_left (by linarith)]
  · rw [h1 fs]; exact le_max_left 0 _
  · rw [h1 [7/10, 6/10]]; norm_num
  · rw [h1 [7/10, 6/10, 1/10]]; norm_num

theorem C5_ml_additive_witness :
    (1 : ℚ) ≤ ([(0 : ℚ), 0].map fun f => 1 - f).sum
  ∧ mlIndFitness SEL_Additive [0, 0] = 0 :=
  ⟨by norm_num, (C5_ml_additive [0, 0]).2.1 (by norm_num)⟩

/-- C6: multiplicative-mode composition of a multi-locus selector: the
composed fitness is the product of the child fitness values; children
`0.8` and `0.5` compose to `0.4`. -/
theorem C6_ml_multiplicative (fs : List ℚ) :
    mlIndFitness SEL_Multiplicative fs = fs.prod
  ∧ mlIndFitness SEL_Multiplicative [8/10, 5/10] = 4/10 := by
  constructor
  · simp [mlIndFitness]
  · simp [mlIndFitness, SEL_Multiplicative]
    norm_num

theorem C6_ml_multiplicative_witness :
    mlIndFitness SEL_Multiplicative [8/10, 5/10] = 4/10 :=
  (C6_ml_multiplicative [8/10, 5/10]).2

/-- C7: the maSelector constructor accepts a fitness table iff its length
is exactly `3 ^ numLoci`; with one locus a table of length 3 is accepted
while lengths 2 and 4 are rejected at construction. -/
theorem C7_maSelector_table_length (loci : List Nat) (fitness : List ℚ)
    (wildtype : List Nat) :
    ((∃ v, maSelector.construct loci fitness wildtype = .ok v)
      ↔ fitness.length = 3 ^ loci.length)
  ∧ (∃ v, maSelector.construct [0] [1, 1, 1] [0] = .ok v)
  ∧ (∃ e, maSelector.construct [0] [1, 1] [0] = .error e)
  ∧ (∃ e, maSelector.construct [0] [1, 1, 1, 1] [0] = .error e) := by
  refine ⟨?_, ⟨_, rfl⟩, ⟨_, rfl⟩, ⟨_, rfl⟩⟩
  unfold maSelector.construct
  split
  · simp_all
  · simp_all

theorem defaultVspMapFrom_length (cs : List childSplitter) (i : Nat) :
    (defaultVspMapFrom i cs).length = totalNumVSP cs := by
  induction cs generalizing i with
  | nil => rfl
  | cons c cs ih =>
    simp only [defaultVspMapFrom, List.length_append, List.length_map,
      List.length_range, ih, totalNumVSP, List.map_cons, List.sum_cons]

theorem defaultVspMapFrom_getD (cs : List childSplitter) (i k : Nat)
    (hk : k < totalNumVSP cs) :
    (defaultVspMapFrom i cs).getD k [] = [toChildPair i cs k] := by
  induction cs generalizing i k with
  | nil => simp [totalNumVSP] at hk
  | cons c cs ih =>
    have hlen : ((List.range c.numVSP).map fun v => [(i, v)]).length = c.numVSP := by
      simp
    by_cases hc : k < c.numVSP
    · rw [defaultVspMapFrom, List.getD_append _ _ _ _ (by omega),
        List.getD_eq_getElem _ _ (by omega)]
      simp [toChildPair, hc]
    · have hk' : k - c.numVSP < totalNumVSP cs := by
        simp only [totalNumVSP, List.map_cons, List.sum_cons] at hk
        simp only [totalNumVSP]
        omega
      rw [defaultVspMapFrom, List.getD_append_right _ _ _ _ (by omega), hlen,
        ih (i + 1) (k - c.numVSP) hk']
      rw [toChildPair, if_neg hc]

theorem toChildPair_spec (cs : List childSplitter) (i k : Nat)
    (hk : k < totalNumVSP cs) :
    ∃ j, j < cs.length
      ∧ toChildPair i cs k = (i + j, k - totalNumVSP (cs.take j))
      ∧ totalNumVSP (cs.take j) ≤ k
      ∧ k - totalNumVSP (cs.take j) < (cs.getD j default).numVSP := by
  induction cs generalizing i k with
  | nil => simp [totalNumVSP] at hk
  | cons c cs ih =>
    by_cases hc : k < c.numVSP
    · refine ⟨0, by simp, ?_, by simp [totalNumVSP], by simpa [totalNumVSP] using hc⟩
      simp [toChildPair, hc, totalNumVSP]
    · have hk' : k - c.numVSP < totalNumVSP cs := by
        simp only [totalNumVSP, List.map_cons, List.sum_cons] at hk
        simp only [totalNumVSP]
        omega
      obtain ⟨j, hj1, hj2, hj3, hj4⟩ := ih (i + 1) (k - c.numVSP) hk'
      have htake : totalNumVSP ((c :: cs).take (j + 1))
          = c.numVSP + totalNumVSP (cs.take j) := by
        simp [totalNumVSP]
      refine ⟨j + 1, by simpa using hj1, ?_, ?_, ?_⟩
      · rw [toChildPair, if_neg hc, hj2, htake]
        simp only [Prod.mk.injEq]
        omega
      · omega
      · rw [htake, List.getD_cons_succ]
        omega

theorem any_map_general {α β : Type} (f : α → β) (l : List α) (p : β → Bool) :
    (l.map f).any p = l.any fun a => p (f a) := by
  induction l with
  | nil => rfl
  | cons a l ih => simp [List.any_cons, ih]

theorem any_congr_general {α : Type} (l : List α) (p q : α → Bool)
    (h : ∀ a ∈ l, p a = q a) : l.any p = l.any q := by
  induction l with
  | nil => rfl
  | cons a l ih =>
    simp only [List.any_cons, h a (by simp), ih fun x hx => h x (by simp [hx])]

theorem combined_original_contains (cs : List childSplitter)
    (groups : List (List Nat)) (ind k : Nat) (hk : k < totalNumVSP cs) :
    (combinedSplitter.construct cs groups).contains ind k
      = (cs.getD (toChildPair 0 cs k).1 default).contains ind (toChildPair 0 cs k).2 := by
  simp only [combinedSplitter.construct, combinedSplitter.contains]
  rw [List.getD_append _ _ _ _ (by rw [defaultVspMapFrom_length]; exact hk),
    defaultVspMapFrom_getD cs 0 k hk]
  simp

theorem C7_maSelector_table_length_witness :
    ∃ e, maSelector.construct [0] [1, 1] [0] = .error e :=
  (C7_maSelector_table_length [] [] []).2.2.1

theorem mlConstruct_eq (selectors : List baseOperatorV) (mode : Int)
    (hne : selectors ≠ []) :
    mlSelector.construct selectors mode
      = (cloneChildren selectors).map fun cs => .mlSelectorOp cs mode := by
  cases selectors with
  | nil => exact absurd rfl hne
  | cons a as => rfl

/-- C8: the mlSelector constructor rejects an empty child list; a child
list containing another mlSelector makes construction fail (the
constructor deep-copies each child through `clone()`, and
`mlSelector::clone()` throws); and a list of non-mlSelector selectors is
accepted, its members deep-copied into the composite. -/
theorem C8_mlSelector_construction (selectors children : List baseOperatorV)
    (mode m : Int) :
    (∃ e, mlSelector.construct [] mode = .error e)
  ∧ (baseOperatorV.mlSelectorOp children m ∈ selectors →
      ∃ e, mlSelector.construct selectors mode = .error e)
  ∧ (selectors ≠ [] → (∀ s ∈ selectors, isMlSelector s = false) →
      mlSelector.construct selectors mode = .ok (.mlSelectorOp selectors mode)) := by
  refine ⟨⟨_, rfl⟩, ?_, ?_⟩
  · intro h
    obtain ⟨e, he⟩ := cloneChildren_error_of_mem selectors children m h
    have hne : selectors ≠ [] := by rintro rfl; cases h
    refine ⟨e, ?_⟩
    rw [mlConstruct_eq selectors mode hne, he]
    rfl
  · intro hne hml
    rw [mlConstruct_eq selectors mode hne, cloneChildren_ok selectors hml]
    rfl

theorem C8_mlSelector_construction_witness :
    (∃ e, mlSelector.construct [.mlSelectorOp [] 1] 2 = .error e)
  ∧ mlSelector.construct [.selectorOp, .mapSelectorOp] 2
      = .ok (.mlSelectorOp [.selectorOp, .mapSelectorOp] 2) :=
  ⟨(C8_mlSelector_construction [.mlSelectorOp [] 1] [] 2 1).2.1
      (List.mem_singleton.mpr rfl),
   (C8_mlSelector_construction [.selectorOp, .mapSelectorOp] [] 2 1).2.2
      (by simp) (by decide)⟩

/-- C9: both vspID constructors clamp negative IDs to the unset sentinel,
so `valid()` holds iff the subpopulation ID was supplied non-negative and
`isVirtual()` holds iff the virtual ID was supplied non-negative; the
list constructor rejects lists of more than two elements. -/
theorem C9_vspID_normalization (sp vp : Int) (l m : List Int)
    (hl : l.length ≤ 2) (hm : 2 < m.length) :
    ((vspID.mk2 sp vp).valid = true ↔ 0 ≤ sp)
  ∧ ((vspID.mk2 sp vp).isVirtual = true ↔ 0 ≤ vp)
  ∧ (∃ v : vspID, vspID.ofList l = .ok v
      ∧ (v.valid = true ↔ 0 < l.length ∧ 0 ≤ l.getD 0 0)
      ∧ (v.isVirtual = true ↔ 1 < l.length ∧ 0 ≤ l.getD 1 0))
  ∧ (∃ e, vspID.ofList m = .error e) := by
  refine ⟨?_, ?_, ?_, ?_⟩
  · simp only [vspID.mk2, vspID.valid, InvalidSubPopID]
    split <;> simp <;> omega
  · simp only [vspID.mk2, vspID.isVirtual, InvalidSubPopID]
    split <;> simp <;> omega
  · refine ⟨⟨if 0 < l.length ∧ 0 ≤ l.getD 0 0 then l.getD 0 0 else InvalidSubPopID,
             if 1 < l.length ∧ 0 ≤ l.getD 1 0 then l.getD 1 0 else InvalidSubPopID⟩,
             ?_, ?_, ?_⟩
    · unfold vspID.ofList
      rw [if_neg (by omega)]
    · simp only [vspID.valid, InvalidSubPopID]
      split
      · rename_i h
        simp only [ne_eq, decide_eq_true_eq]
        exact iff_of_true (by omega) h
      · rename_i h
        simp only [ne_eq, decide_eq_true_eq]
        exact iff_of_false (by simp) h
    · simp only [vspID.isVirtual, InvalidSubPopID]
      split
      · rename_i h
        simp only [ne_eq, decide_eq_true_eq]
        exact iff_of_true (by omega) h
      · rename_i h
        simp only [ne_eq, decide_eq_true_eq]
        exact iff_of_false (by simp) h
  · exact ⟨_, by unfold vspID.ofList; rw [if_pos (by omega)]⟩

theorem C9_vspID_normalization_witness :
    ∃ e, vspID.ofList [1, 2, 3] = .error e :=
  (C9_vspID_normalization 5 (-7) [5] [1, 2, 3] (by decide) (by decide)).2.2.2

theorem mixedRadixDecomp_length (cs : List Nat) (v : Nat) :
    (mixedRadixDecomp cs v).length = cs.length := by
  induction cs generalizing v with
  | nil => rfl
  | cons c cs ih => simp [mixedRadixDecomp, ih]

theorem prod_pos_of_lt (cs : List Nat) (c v : Nat) (hv : v < (c :: cs).prod) :
    0 < cs.prod := by
  rcases Nat.eq_zero_or_pos cs.prod with h | h
  · rw [List.prod_cons, h, Nat.mul_zero] at hv
    omega
  · exact h

theorem mixedRadixDecomp_lt (cs : List Nat) (v : Nat) (hv : v < cs.prod) :
    List.Forall₂ (fun c d => d < c) cs (mixedRadixDecomp cs v) := by
  induction cs generalizing v with
  | nil => exact List.Forall₂.nil
  | cons c cs ih =>
    have hP : 0 < cs.prod := prod_pos_of_lt cs c v hv
    refine List.Forall₂.cons ?_ (ih _ (Nat.mod_lt _ hP))
    have hvc : v < cs.prod * c := by
      rw [List.prod_cons, Nat.mul_comm] at hv
      exact hv
    exact Nat.div_lt_of_lt_mul hvc

theorem mixedRadixVal_decomp (cs : List Nat) (v : Nat) (hv : v < cs.prod) :
    mixedRadixVal cs (mixedRadixDecomp cs v) = v := by
  induction cs generalizing v with
  | nil =>
    have hv0 : v = 0 := by simpa using hv
    subst hv0
    rfl
  | cons c cs ih =>
    have hP : 0 < cs.prod := prod_pos_of_lt cs c v hv
    simp only [mixedRadixDecomp, mixedRadixVal]
    rw [ih _ (Nat.mod_lt _ hP), Nat.mul_comm, Nat.div_add_mod]

/-- C1: the product splitter over child splitters with VSP counts
`c_1..c_n` has `numVirtualSubPop()` equal to the product of the counts;
every flattened index below the product decomposes by mixed-radix
arithmetic (most significant child slowest) into one in-range child-local
index per child and recomposes to the same flattened index; `contains`
holds iff every child contains the individual at its decomposed local
index; concretely, counts `[2, 3]` give 6 VSPs and flattened index 4
decomposes to `(1, 1)`. -/
theorem C1_product_splitter (s : productSplitter) (v ind : Nat)
    (hv : v < s.numVirtualSubPop) :
    s.numVirtualSubPop = (s.m_splitters.map childSplitter.numVSP).prod
  ∧ (s.getVSPs v).length = s.m_splitters.length
  ∧ List.Forall₂ (fun c d => d < c) (s.m_splitters.map childSplitter.numVSP) (s.getVSPs v)
  ∧ mixedRadixVal (s.m_splitters.map childSplitter.numVSP) (s.getVSPs v) = v
  ∧ (s.contains ind v = true ↔
      ∀ p ∈ s.m_splitters.zip (s.getVSPs v), p.1.contains ind p.2 = true)
  ∧ (productSplitter.mk [⟨2, fun _ _ => true⟩, ⟨3, fun _ _ => true⟩]).numVirtualSubPop = 6
  ∧ (productSplitter.mk [⟨2, fun _ _ => true⟩, ⟨3, fun _ _ => true⟩]).getVSPs 4 = [1, 1] := by
  have hv' : v < (s.m_splitters.map childSplitter.numVSP).prod := hv
  refine ⟨rfl, ?_, ?_, ?_, ?_, by decide, by decide⟩
  · rw [productSplitter.getVSPs, mixedRadixDecomp_length, List.length_map]
  · exact mixedRadixDecomp_lt _ _ hv'
  · exact mixedRadixVal_decomp _ _ hv'
  · simp [productSplitter.contains, List.all_eq_true]

theorem C1_product_splitter_witness :
    (productSplitter.mk [⟨2, fun _ _ => true⟩, ⟨3, fun _ _ => true⟩]).getVSPs 4 = [1, 1] :=
  (C1_product_splitter
    (productSplitter.mk [⟨2, fun _ _ => true⟩, ⟨3, fun _ _ => true⟩]) 4 0
    (by decide)).2.2.2.2.2.2

/-- C2: the combined splitter built from child splitters and an optional
list of union groups has `numVirtualSubPop()` equal to the sum of the
child VSP counts plus the number of groups, the union VSPs appended
after all the concatenated originals; with no groups the count is
exactly the sum; each original flattened VSP `k` maps to the single
correct (child, child-local) pair; and a union VSP contains an
individual iff at least one of its member original VSPs contains it
(logical OR). -/
theorem C2_combined_splitter (cs : List childSplitter) (groups : List (List Nat))
    (k gi ind : Nat) (hk : k < totalNumVSP cs) (hgi : gi < groups.length)
    (hmem : ∀ j ∈ groups.getD gi [], j < totalNumVSP cs) :
    (combinedSplitter.construct cs groups).numVirtualSubPop
        = totalNumVSP cs + groups.length
  ∧ (combinedSplitter.construct cs []).numVirtualSubPop = totalNumVSP cs
  ∧ (combinedSplitter.construct cs groups).m_vspMap.getD k [] = [toChildPair 0 cs k]
  ∧ (∃ j, j < cs.length
      ∧ toChildPair 0 cs k = (j, k - totalNumVSP (cs.take j))
      ∧ totalNumVSP (cs.take j) ≤ k
      ∧ k - totalNumVSP (cs.take j) < (cs.getD j default).numVSP)
  ∧ (combinedSplitter.construct cs groups).contains ind (totalNumVSP cs + gi)
      = (groups.getD gi []).any fun j =>
          (combinedSplitter.construct cs groups).contains ind j := by
  refine ⟨?_, ?_, ?_, ?_, ?_⟩
  · show (defaultVspMapFrom 0 cs
        ++ groups.map fun g => g.map (toChildPair 0 cs)).length = _
    rw [List.length_append, defaultVspMapFrom_length, List.length_map]
  · show (defaultVspMapFrom 0 cs ++ ([] : List (List (Nat × Nat)))).length = _
    rw [List.length_append, defaultVspMapFrom_length]
    simp
  · show (defaultVspMapFrom 0 cs
        ++ groups.map fun g => g.map (toChildPair 0 cs)).getD k [] = _
    rw [List.getD_append _ _ _ _ (by rw [defaultVspMapFrom_length]; exact hk)]
    exact defaultVspMapFrom_getD cs 0 k hk
  · obtain ⟨j, hj1, hj2, hj3, hj4⟩ := toChildPair_spec cs 0 k hk
    rw [Nat.zero_add] at hj2
    exact ⟨j, hj1, hj2, hj3, hj4⟩
  · show ((defaultVspMapFrom 0 cs
        ++ groups.map fun g => g.map (toChildPair 0 cs)).getD (totalNumVSP cs + gi) []).any
        (fun p => (cs.getD p.1 default).contains ind p.2) = _
    rw [List.getD_append_right _ _ _ _ (by rw [defaultVspMapFrom_length]; omega),
      defaultVspMapFrom_length]
    have hidx : totalNumVSP cs + gi - totalNumVSP cs = gi := by omega
    rw [hidx, List.getD_eq_getElem _ _ (by simpa using hgi), List.getElem_map,
      any_map_general, List.getD_eq_getElem _ _ hgi]
    rw [List.getD_eq_getElem _ _ hgi] at hmem
    refine any_congr_general _ _ _ fun j hj => ?_
    rw [combined_original_contains cs groups ind j (hmem j hj)]

theorem C2_combined_splitter_witness :
    (combinedSplitter.construct
        [⟨2, fun _ _ => true⟩, ⟨3, fun _ _ => true⟩] [[0, 2]]).numVirtualSubPop = 6 :=
  (C2_combined_splitter [⟨2, fun _ _ => true⟩, ⟨3, fun _ _ => true⟩] [[0, 2]] 3 0 0
    (by decide) (by decide) (by decide)).1

/-- C10: `mlSelector::clone()` unconditionally throws
"Multi-loci selector can not be nested.", whatever the child list and
mode of the selector being copied. -/
theorem C10_mlSelector_clone_throws (children : List baseOperatorV) (mode : Int) :
    cloneOp (.mlSelectorOp children mode)
      = .error "Multi-loci selector can not be nested." := rfl

theorem C10_mlSelector_clone_throws_witness :
    cloneOp (.mlSelectorOp [] 0) = .error "Multi-loci selector can not be nested." :=
  C10_mlSelector_clone_throws [] 0
